import Mathlib

/-!
Verification of the single-file person-directory HTTP service (`main.py`).

The pydantic models become Lean structures; pydantic's `.dict()` becomes an
association list `List (String × Value)` in declaration order; FastAPI's
response-model filtering becomes a key projection on that list; parameter
binding with constraint checks becomes validators returning
`Except ValidationError _`; raising `HTTPException` becomes
`Except HttpError _`.  The email / URL / payment-card syntax checkers live in
the pydantic library, outside this repository, so they are taken as
parameters (`String → Bool`) everywhere they occur.
-/

namespace Fundamentals

/-- A JSON-serializable field value, as produced by pydantic `.dict()`. -/
inductive Value where
  | vStr (s : String)
  | vInt (n : Int)
  | vBool (b : Bool)
  | vHair (c : String)
  | vRat (q : ℚ)
  | vNone
deriving DecidableEq, Repr

/-- `hair_color` enumeration from `class HairColor(Enum)`. -/
inductive HairColor where
  | white
  | brown
  | black
  | blonde
  | red
deriving DecidableEq, Repr

/-- The string value carried by each `HairColor` member. -/
def HairColor.value : HairColor → String
  | .white => "white"
  | .brown => "brown"
  | .black => "black"
  | .blonde => "blonde"
  | .red => "red"

/-- `class PersonBase(BaseModel)`: the bound, fully validated field values.
`is_married`, `hair_color`, `website_url`, `credit_card` are nullable. -/
structure PersonBase where
  first_name : String
  last_name : String
  age : Int
  is_married : Option Bool
  email : String
  hair_color : Option HairColor
  website_url : Option String
  credit_card : Option String
deriving DecidableEq, Repr

/-- `class Person(PersonBase)`: adds the `password` field. -/
structure Person extends PersonBase where
  password : String
deriving DecidableEq, Repr

/-- `class Location(BaseModel)`. -/
structure Location where
  city : String
  state : String
  country : String
deriving DecidableEq, Repr

/-- Nullable field serialization: `None` or the wrapped value. -/
def optValue (f : α → Value) : Option α → Value
  | none => Value.vNone
  | some a => f a

/-- `PersonBase.dict()`: fields in declaration order. -/
def PersonBase.dict (p : PersonBase) : List (String × Value) :=
  [("first_name", .vStr p.first_name),
   ("last_name", .vStr p.last_name),
   ("age", .vInt p.age),
   ("is_married", optValue .vBool p.is_married),
   ("email", .vStr p.email),
   ("hair_color", optValue (fun c => .vHair c.value) p.hair_color),
   ("website_url", optValue .vStr p.website_url),
   ("credit_card", optValue .vStr p.credit_card)]

/-- `Person.dict()`: inherited fields first, then `password`. -/
def Person.dict (p : Person) : List (String × Value) :=
  p.toPersonBase.dict ++ [("password", .vStr p.password)]

/-- `Location.dict()`. -/
def Location.dict (l : Location) : List (String × Value) :=
  [("city", .vStr l.city), ("state", .vStr l.state), ("country", .vStr l.country)]

/-- Declared field names of `PersonOut` (= `PersonBase`, `class PersonOut(PersonBase): pass`). -/
def personOutFields : List String :=
  ["first_name", "last_name", "age", "is_married", "email",
   "hair_color", "website_url", "credit_card"]

/-- Declared field names of `Location`. -/
def locationFields : List String :=
  ["city", "state", "country"]

/-- Declared field names of `class PersonLocationOut(PersonOut, Location)`:
the union of both field sets (no collisions exist). -/
def personLocationOutFields : List String :=
  locationFields ++ personOutFields

/-- FastAPI's response-model filter: keep exactly the fields declared by the
output schema, dropping everything else (e.g. `password`). -/
def responseFilter (fields : List String) (d : List (String × Value)) :
    List (String × Value) :=
  d.filter (fun kv => fields.contains kv.1)

/-- Handler `create_person`: returns the bound `Person` unchanged. -/
def create_person (person : Person) : Person :=
  person

/-- `POST /persons` as observed by the caller: the handler's return value
serialized and filtered through the declared response model `PersonOut`. -/
def createPersonResponse (person : Person) : List (String × Value) :=
  responseFilter personOutFields (create_person person).dict

/-- Projecting an arbitrary serialized record through the `PersonOut` schema. -/
def personOutProject (d : List (String × Value)) : List (String × Value) :=
  responseFilter personOutFields d

/-- `raise HTTPException(status_code, detail)`. -/
structure HttpError where
  status_code : Nat
  detail : String
deriving DecidableEq, Repr

/-- The fixed in-memory registry: `persons = [1, 2, 3, 4, 5]`. -/
def persons : List Int := [1, 2, 3, 4, 5]

/-- Handler `get_person`: 404 when `person_id not in persons`, otherwise the
single-entry mapping `{person_id: 'It exists!'}`. -/
def get_person (person_id : Int) : Except HttpError (List (Int × String)) :=
  if !(persons.contains person_id) then
    .error ⟨404, "This person does not exist"⟩
  else
    .ok [(person_id, "It exists!")]

/-- A rejected binding: the field that failed and the violated constraint,
surfaced to the caller as HTTP 422. -/
structure ValidationError where
  field : String
  violated : String
deriving DecidableEq, Repr

/-- A required parameter (`default=...` in pydantic/FastAPI): absent raw
value rejects the request. -/
def requiredField (field : String) : Option α → Except ValidationError α
  | none => .error ⟨field, "required"⟩
  | some a => .ok a

/-- `min_length` constraint on a string field. -/
def checkMinLength (field : String) (lo : Nat) (s : String) :
    Except ValidationError String :=
  if s.length < lo then .error ⟨field, "min_length"⟩ else .ok s

/-- `max_length` constraint on a string field. -/
def checkMaxLength (field : String) (hi : Nat) (s : String) :
    Except ValidationError String :=
  if s.length > hi then .error ⟨field, "max_length"⟩ else .ok s

/-- `gt` constraint on an integer field. -/
def checkGt (field : String) (lo : Int) (v : Int) : Except ValidationError Int :=
  if v > lo then .ok v else .error ⟨field, "gt"⟩

/-- `le` constraint on an integer field. -/
def checkLe (field : String) (hi : Int) (v : Int) : Except ValidationError Int :=
  if v ≤ hi then .ok v else .error ⟨field, "le"⟩

/-- `ge` constraint on an integer field. -/
def checkGe (field : String) (lo : Int) (v : Int) : Except ValidationError Int :=
  if v ≥ lo then .ok v else .error ⟨field, "ge"⟩

/-- A syntax-validated string type (`EmailStr`, `HttpUrl`,
`PaymentCardNumber`); the checker itself is pydantic's, hence a parameter. -/
def checkFormat (field : String) (ok : String → Bool) (s : String) :
    Except ValidationError String :=
  if ok s then .ok s else .error ⟨field, "format"⟩

/-- Coercion of a raw string into the `HairColor` enumeration. -/
def parseHairColor (field : String) (s : String) : Except ValidationError HairColor :=
  if s == "white" then .ok .white
  else if s == "brown" then .ok .brown
  else if s == "black" then .ok .black
  else if s == "blonde" then .ok .blonde
  else if s == "red" then .ok .red
  else .error ⟨field, "enum"⟩

/-- A nullable field: absent stays `none`, present must validate. -/
def optionalField (f : α → Except ValidationError β) :
    Option α → Except ValidationError (Option β)
  | none => .ok none
  | some a => (f a).map some

/-- The raw request-body data for a `Person`, before binding: every declared
field either absent or carrying an already-coerced value. -/
structure RawPerson where
  first_name : Option String
  last_name : Option String
  age : Option Int
  is_married : Option Bool
  email : Option String
  hair_color : Option String
  website_url : Option String
  credit_card : Option String
  password : Option String
deriving DecidableEq, Repr

/-- The request binder for `Person` bodies: each declared field is checked
against its `Field(...)` constraints in declaration order; the first
violation rejects the whole request and the handler never runs.
`emailOk`, `urlOk`, `cardOk` are pydantic's `EmailStr` / `HttpUrl` /
`PaymentCardNumber` syntax checkers. -/
def validatePerson (emailOk urlOk cardOk : String → Bool) (r : RawPerson) :
    Except ValidationError Person := do
  let fn ← requiredField "first_name" r.first_name
  let fn ← checkMinLength "first_name" 1 fn
  let fn ← checkMaxLength "first_name" 50 fn
  let ln ← requiredField "last_name" r.last_name
  let ln ← checkMinLength "last_name" 1 ln
  let ln ← checkMaxLength "last_name" 50 ln
  let age ← requiredField "age" r.age
  let age ← checkGt "age" 0 age
  let age ← checkLe "age" 115 age
  let is_married := r.is_married.getD false
  let em ← requiredField "email" r.email
  let em ← checkFormat "email" emailOk em
  let hc ← optionalField (parseHairColor "hair_color") r.hair_color
  let url ← optionalField (checkFormat "website_url" urlOk) r.website_url
  let cc ← optionalField (checkFormat "credit_card" cardOk) r.credit_card
  let pw ← requiredField "password" r.password
  let pw ← checkMinLength "password" 8 pw
  return { first_name := fn, last_name := ln, age := age,
           is_married := some is_married, email := em, hair_color := hc,
           website_url := url, credit_card := cc, password := pw }

/-- Modelled from the spec: the constraint list of §3/§4.2 as the claim
states it — a request binds successfully exactly when every declared field
is present where required and satisfies its declared constraint. -/
def specPersonBinds (emailOk urlOk cardOk : String → Bool) (r : RawPerson) : Prop :=
  (∃ fn, r.first_name = some fn ∧ 1 ≤ fn.length ∧ fn.length ≤ 50) ∧
  (∃ ln, r.last_name = some ln ∧ 1 ≤ ln.length ∧ ln.length ≤ 50) ∧
  (∃ a, r.age = some a ∧ 1 ≤ a ∧ a ≤ 115) ∧
  (∃ em, r.email = some em ∧ emailOk em = true) ∧
  (r.hair_color = none ∨ ∃ hc, r.hair_color = some hc ∧
    (hc = "white" ∨ hc = "brown" ∨ hc = "black" ∨ hc = "blonde" ∨ hc = "red")) ∧
  (r.website_url = none ∨ ∃ u, r.website_url = some u ∧ urlOk u = true) ∧
  (r.credit_card = none ∨ ∃ c, r.credit_card = some c ∧ cardOk c = true) ∧
  (∃ pw, r.password = some pw ∧ 8 ≤ pw.length)

/-- Query binder for `name` in `get_persons`: optional, default
`'Anonymous'`, length 1–50 when supplied. -/
def bindQueryName (name : Option String) : Except ValidationError String :=
  match name with
  | none => .ok "Anonymous"
  | some n => do
    let n ← checkMinLength "name" 1 n
    checkMaxLength "name" 50 n

/-- Query binder for `age` in `get_persons`: required, `ge=0`. -/
def bindQueryAge (age : Option Int) : Except ValidationError Int := do
  let a ← requiredField "age" age
  checkGe "age" 0 a

/-- Handler `get_persons`: the single-entry mapping `{name: age}`. -/
def get_persons (name : String) (age : Int) : List (String × Int) :=
  [(name, age)]

/-- `GET /persons` end to end: bind both query parameters, then run the
handler. -/
def getPersonsEndpoint (name : Option String) (age : Option Int) :
    Except ValidationError (List (String × Int)) := do
  let n ← bindQueryName name
  let a ← bindQueryAge age
  return get_persons n a

/-- Handler `update_person`: `results = person.dict()` then
`results.update(location.dict())`; `person_id` is bound but unused. -/
def dictUpdate (d u : List (String × Value)) : List (String × Value) :=
  (d.map fun kv =>
    match u.find? (fun kv2 => kv2.1 == kv.1) with
    | some kv2 => (kv.1, kv2.2)
    | none => kv) ++
  u.filter (fun kv2 => !(d.any (fun kv => kv.1 == kv2.1)))

/-- Handler `update_person` proper. -/
def update_person (person_id : Int) (person : Person) (location : Location) :
    List (String × Value) :=
  dictUpdate person.dict location.dict

/-- `PUT /persons/{person_id}` as observed by the caller: the handler's
merged dict filtered through the declared response model
`PersonLocationOut`.  The handler raises nothing, so the result is always
`ok`. -/
def updatePersonEndpoint (person_id : Int) (person : Person) (location : Location) :
    Except HttpError (List (String × Value)) :=
  .ok (responseFilter personLocationOutFields (update_person person_id person location))

/-- `class LoginOut(LoginBase)`: username plus a message defaulting to
`'Login successfully!'`. -/
structure LoginOut where
  username : String
  message : String
deriving DecidableEq, Repr

/-- `LoginOut.dict()`. -/
def LoginOut.dict (l : LoginOut) : List (String × Value) :=
  [("username", .vStr l.username), ("message", .vStr l.message)]

/-- Handler `login`: `LoginOut(username=username)` — the message takes its
default and the password is discarded. -/
def login (username password : String) : LoginOut :=
  { username := username, message := "Login successfully!" }

/-- `POST /login` end to end: bind the two form fields
(`username`: 1–20 chars, `password`: ≥ 8 chars), run the handler, serialize
through the `LoginOut` response model. -/
def loginEndpoint (username password : Option String) :
    Except ValidationError (List (String × Value)) := do
  let u ← requiredField "username" username
  let u ← checkMinLength "username" 1 u
  let u ← checkMaxLength "username" 20 u
  let pw ← requiredField "password" password
  let pw ← checkMinLength "password" 8 pw
  return (login u pw).dict

/-- Handler `contact`: returns `user_agent` verbatim (possibly `None`); the
form fields and the `ads` cookie are bound, validated and dropped. -/
def contact (first_name last_name email message : String)
    (user_agent ads : Option String) : Option String :=
  user_agent

/-- `POST /contact` end to end: bind the four form fields
(names 1–20 chars, email syntax, message ≥ 20 chars), the optional
`user_agent` header and `ads` cookie, then run the handler. -/
def contactEndpoint (emailOk : String → Bool)
    (first_name last_name email message : Option String)
    (user_agent ads : Option String) :
    Except ValidationError (Option String) := do
  let fn ← requiredField "first_name" first_name
  let fn ← checkMinLength "first_name" 1 fn
  let fn ← checkMaxLength "first_name" 20 fn
  let ln ← requiredField "last_name" last_name
  let ln ← checkMinLength "last_name" 1 ln
  let ln ← checkMaxLength "last_name" 20 ln
  let em ← requiredField "email" email
  let em ← checkFormat "email" emailOk em
  let msg ← requiredField "message" message
  let msg ← checkMinLength "message" 20 msg
  return contact fn ln em msg user_agent ads

/-- `UploadFile`: original filename, declared content type, size in bytes. -/
structure UploadFile where
  filename : String
  content_type : String
  size : Nat
deriving DecidableEq, Repr

/-- Python's `round` to an integer: round half to even. -/
def roundHalfEven (q : ℚ) : Int :=
  let f := ⌊q⌋
  let r := q - f
  if r < 1 / 2 then f
  else if r > 1 / 2 then f + 1
  else if f % 2 == 0 then f else f + 1

/-- Python's `round(number, ndigits=2)`. -/
def roundTo2 (q : ℚ) : ℚ :=
  (roundHalfEven (q * 100) : ℚ) / 100

/-- Handler `post_image`: filename, content type, and
`round(image.size / 1024, 2)` kilobytes. -/
def post_image (image : UploadFile) : List (String × Value) :=
  [("filename", .vStr image.filename),
   ("format", .vStr image.content_type),
   ("size(kb)", .vRat (roundTo2 ((image.size : ℚ) / 1024)))]

/-- Monad reduction: binding a success value. -/
theorem exc_ok_bind {ε α β : Type} (a : α) (k : α → Except ε β) :
    (Except.ok a >>= k) = k a := rfl

/-- Monad reduction: binding a failure short-circuits. -/
theorem exc_error_bind {ε α β : Type} (e : ε) (k : α → Except ε β) :
    ((Except.error e : Except ε α) >>= k) = Except.error e := rfl

/-- Functor reduction on a success value. -/
theorem exc_map_ok {ε α β : Type} (f : α → β) (a : α) :
    (f <$> (Except.ok a : Except ε α)) = Except.ok (f a) := rfl

/-- Functor reduction on a failure. -/
theorem exc_map_error {ε α β : Type} (f : α → β) (e : ε) :
    (f <$> (Except.error e : Except ε α)) = Except.error e := rfl

/-- A bind succeeds exactly when both stages succeed. -/
theorem exists_ok_bind {α β : Type} (e : Except ValidationError α)
    (k : α → Except ValidationError β) :
    (∃ b, (e >>= k) = .ok b) ↔ ∃ a, e = .ok a ∧ ∃ b, k a = .ok b := by
  cases e <;> simp [exc_ok_bind, exc_error_bind]

/-- `pure` is `ok`. -/
theorem exc_pure_eq_ok {α : Type} (x b : α) :
    (pure x : Except ValidationError α) = .ok b ↔ b = x := by
  simp [pure, Except.pure, eq_comm]

/-- `requiredField` succeeds exactly on a present raw value. -/
theorem requiredField_eq_ok {α : Type} (f : String) (o : Option α) (a : α) :
    requiredField f o = .ok a ↔ o = some a := by
  cases o <;> simp [requiredField, eq_comm]

/-- `checkMinLength` succeeds exactly on strings long enough. -/
theorem checkMinLength_eq_ok (f : String) (lo : Nat) (s t : String) :
    checkMinLength f lo s = .ok t ↔ t = s ∧ lo ≤ s.length := by
  unfold checkMinLength
  split_ifs with h
  · simp [show ¬ lo ≤ s.length from by omega]
  · simp [show lo ≤ s.length from by omega, eq_comm]

/-- `checkMaxLength` succeeds exactly on strings short enough. -/
theorem checkMaxLength_eq_ok (f : String) (hi : Nat) (s t : String) :
    checkMaxLength f hi s = .ok t ↔ t = s ∧ s.length ≤ hi := by
  unfold checkMaxLength
  split_ifs with h
  · simp [show ¬ s.length ≤ hi from by omega]
  · simp [show s.length ≤ hi from by omega, eq_comm]

/-- `checkGt` succeeds exactly above the bound. -/
theorem checkGt_eq_ok (f : String) (lo v w : Int) :
    checkGt f lo v = .ok w ↔ w = v ∧ lo < v := by
  unfold checkGt
  split_ifs with h
  · simp [h, eq_comm]
  · simp [h]

/-- `checkLe` succeeds exactly at or below the bound. -/
theorem checkLe_eq_ok (f : String) (hi v w : Int) :
    checkLe f hi v = .ok w ↔ w = v ∧ v ≤ hi := by
  unfold checkLe
  split_ifs with h
  · simp [h, eq_comm]
  · simp [h]

/-- `checkFormat` succeeds exactly when the syntax checker accepts. -/
theorem checkFormat_eq_ok (f : String) (ok : String → Bool) (s t : String) :
    checkFormat f ok s = .ok t ↔ t = s ∧ ok s = true := by
  unfold checkFormat
  split_ifs with h
  · simp [h, eq_comm]
  · simp [h]

/-- `parseHairColor` succeeds exactly on the five enumeration values. -/
theorem parseHairColor_eq_ok (f s : String) (c : HairColor) :
    parseHairColor f s = .ok c ↔
      (s = "white" ∧ c = .white) ∨ (s = "brown" ∧ c = .brown) ∨
      (s = "black" ∧ c = .black) ∨ (s = "blonde" ∧ c = .blonde) ∨
      (s = "red" ∧ c = .red) := by
  unfold parseHairColor
  split_ifs with h1 h2 h3 h4 h5
  · replace h1 : s = "white" := by simpa using h1
    subst h1; simp [eq_comm]
  · replace h2 : s = "brown" := by simpa using h2
    subst h2; simp [eq_comm]
  · replace h3 : s = "black" := by simpa using h3
    subst h3; simp [eq_comm]
  · replace h4 : s = "blonde" := by simpa using h4
    subst h4; simp [eq_comm]
  · replace h5 : s = "red" := by simpa using h5
    subst h5; simp [eq_comm]
  · replace h1 : s ≠ "white" := by simpa using h1
    replace h2 : s ≠ "brown" := by simpa using h2
    replace h3 : s ≠ "black" := by simpa using h3
    replace h4 : s ≠ "blonde" := by simpa using h4
    replace h5 : s ≠ "red" := by simpa using h5
    simp [h1, h2, h3, h4, h5]

/-- `optionalField` succeeds exactly when absent or inner-valid. -/
theorem optionalField_eq_ok {α β : Type} (f : α → Except ValidationError β)
    (o : Option α) (b : Option β) :
    optionalField f o = .ok b ↔
      (o = none ∧ b = none) ∨
      (∃ a, o = some a ∧ ∃ c, f a = .ok c ∧ b = some c) := by
  cases o with
  | none => simp [optionalField, eq_comm]
  | some a => cases hfa : f a <;> simp [optionalField, Except.map, hfa, eq_comm]

set_option maxHeartbeats 1600000 in
/-- Claim C4: a `Person` body binds — i.e. the handler runs at all — exactly
when every declared field is present where required and satisfies its
declared constraint; one violation anywhere rejects the whole request, and
success yields a complete bound `Person`. -/
theorem person_binder_all_or_nothing (emailOk urlOk cardOk : String → Bool)
    (r : RawPerson) :
    (∃ p, validatePerson emailOk urlOk cardOk r = .ok p) ↔
      specPersonBinds emailOk urlOk cardOk r := by
  unfold validatePerson specPersonBinds
  simp only [exists_ok_bind, requiredField_eq_ok,
    checkMinLength_eq_ok, checkMaxLength_eq_ok, checkGt_eq_ok, checkLe_eq_ok,
    checkFormat_eq_ok, parseHairColor_eq_ok, optionalField_eq_ok,
    exc_pure_eq_ok]
  simp [and_assoc, Int.lt_iff_add_one_le]
  aesop

/-- A sample raw `Person` body (the documented example values). -/
def sampleRawPerson : RawPerson :=
  { first_name := some "Mario", last_name := some "Peña", age := some 26,
    is_married := some false, email := some "user@email.com",
    hair_color := none, website_url := none, credit_card := none,
    password := some "12345678" }

/-- Witness for C4: the documented example body binds successfully, and the
binder's success certifies every constraint of the specification. -/
theorem person_binder_all_or_nothing_witness :
    specPersonBinds (fun _ => true) (fun _ => true) (fun _ => true)
      sampleRawPerson :=
  (person_binder_all_or_nothing (fun _ => true) (fun _ => true) (fun _ => true)
    sampleRawPerson).mp ⟨_, rfl⟩

/-- A sample valid `Person` body (the documented example values). -/
def samplePerson : Person :=
  { first_name := "Mario", last_name := "Peña", age := 26,
    is_married := some false, email := "user@email.com", hair_color := none,
    website_url := none, credit_card := none, password := "12345678" }

/-- A sample valid `Location` body (the documented example values). -/
def sampleLocation : Location :=
  { city := "Caracas", state := "Distrito Capital", country := "Venezuela" }

/-- Claim C1: for every `Person` body, `POST /persons` responds with exactly
the `PersonOut` field set — the eight `PersonBase` fields in declaration
order, no `password` — and each field carries the input's value. -/
theorem create_person_returns_person_out (p : Person) :
    createPersonResponse p =
      [("first_name", Value.vStr p.first_name),
       ("last_name", Value.vStr p.last_name),
       ("age", Value.vInt p.age),
       ("is_married", optValue Value.vBool p.is_married),
       ("email", Value.vStr p.email),
       ("hair_color", optValue (fun c => Value.vHair c.value) p.hair_color),
       ("website_url", optValue Value.vStr p.website_url),
       ("credit_card", optValue Value.vStr p.credit_card)] ∧
    "password" ∉ (createPersonResponse p).map Prod.fst := by
  refine ⟨rfl, ?_⟩
  have hkeys : (createPersonResponse p).map Prod.fst = personOutFields := rfl
  rw [hkeys]
  decide

/-- Claim C2: `get_person` on an identifier outside the registry fails with
404 and the fixed message; on a registry member it returns the single-entry
mapping to `"It exists!"`. -/
theorem get_person_registry_membership (person_id : Int) (h : 1 ≤ person_id) :
    (person_id ∉ persons →
      get_person person_id = .error ⟨404, "This person does not exist"⟩) ∧
    (person_id ∈ persons →
      get_person person_id = .ok [(person_id, "It exists!")]) := by
  constructor
  · intro hn
    simp [get_person, hn]
  · intro hm
    simp [get_person, hm]

/-- Witness for C2 at person_id 6 (absent) and 1 (present). -/
theorem get_person_registry_membership_witness :
    get_person 6 = .error ⟨404, "This person does not exist"⟩ ∧
    get_person 1 = .ok [(1, "It exists!")] :=
  ⟨(get_person_registry_membership 6 (by decide)).1 (by decide),
   (get_person_registry_membership 1 (by decide)).2 (by decide)⟩

/-- Claim C3: `PUT /persons/{person_id}` responds with exactly the three
`Location` fields plus the eight `PersonBase` fields, no `password`, every
value taken verbatim from the corresponding input body. -/
theorem update_person_merges_person_and_location (person_id : Int)
    (p : Person) (l : Location) :
    updatePersonEndpoint person_id p l =
      .ok [("first_name", Value.vStr p.first_name),
           ("last_name", Value.vStr p.last_name),
           ("age", Value.vInt p.age),
           ("is_married", optValue Value.vBool p.is_married),
           ("email", Value.vStr p.email),
           ("hair_color", optValue (fun c => Value.vHair c.value) p.hair_color),
           ("website_url", optValue Value.vStr p.website_url),
           ("credit_card", optValue Value.vStr p.credit_card),
           ("city", Value.vStr l.city),
           ("state", Value.vStr l.state),
           ("country", Value.vStr l.country)] ∧
    "password" ∉ (responseFilter personLocationOutFields
      (update_person person_id p l)).map Prod.fst := by
  refine ⟨rfl, ?_⟩
  have hkeys : (responseFilter personLocationOutFields
      (update_person person_id p l)).map Prod.fst =
      ["first_name", "last_name", "age", "is_married", "email", "hair_color",
       "website_url", "credit_card", "city", "state", "country"] := rfl
  rw [hkeys]
  decide

/-- Claim C7: `post_image` reports the original filename, the declared
content type, and the size in kilobytes rounded to two decimal places; a
2048-byte file yields 2.0 kB and a 1536-byte file yields 1.5 kB. -/
theorem post_image_reports_rounded_kilobytes (image : UploadFile) :
    post_image image =
      [("filename", Value.vStr image.filename),
       ("format", Value.vStr image.content_type),
       ("size(kb)", Value.vRat (roundTo2 ((image.size : ℚ) / 1024)))] ∧
    roundTo2 ((2048 : ℚ) / 1024) = 2 ∧
    roundTo2 ((1536 : ℚ) / 1024) = 3 / 2 := by
  refine ⟨rfl, ?_, ?_⟩ <;> norm_num [roundTo2, roundHalfEven]

/-- Claim C8: projecting a serialized `Person` through the `PersonOut`
schema is idempotent. -/
theorem person_out_projection_idempotent (p : Person) :
    personOutProject (personOutProject p.dict) = personOutProject p.dict := by
  rfl

/-- Claim C10: `update_person` never consults the registry and never raises:
for every path identifier ≥ 1 — registry member or not — it succeeds, and
its response does not depend on the identifier. -/
theorem update_person_ignores_person_id (pid pid2 : Int) (p : Person)
    (l : Location) (h : 1 ≤ pid) :
    (∃ d, updatePersonEndpoint pid p l = .ok d) ∧
    updatePersonEndpoint pid p l = updatePersonEndpoint pid2 p l :=
  ⟨⟨_, rfl⟩, rfl⟩

/-- Witness for C10 at pid 6 (outside the registry) against pid 1. -/
theorem update_person_ignores_person_id_witness :
    (∃ d, updatePersonEndpoint 6 samplePerson sampleLocation = .ok d) ∧
    updatePersonEndpoint 6 samplePerson sampleLocation =
      updatePersonEndpoint 1 samplePerson sampleLocation :=
  update_person_ignores_person_id 6 1 samplePerson sampleLocation (by decide)

/-- Claim C5: a negative `age` query value rejects `GET /persons` with a
validation error; with `age ≥ 0` and `name` omitted the response is
`{"Anonymous": age}`; with a bound name `n` it is `{n: age}`. -/
theorem get_persons_binds_query_parameters (name : Option String) (age : Int) :
    (age < 0 → ∃ e, getPersonsEndpoint name (some age) = .error e) ∧
    (0 ≤ age → name = none →
      getPersonsEndpoint name (some age) = .ok [("Anonymous", age)]) ∧
    (∀ n, name = some n → 1 ≤ n.length → n.length ≤ 50 → 0 ≤ age →
      getPersonsEndpoint name (some age) = .ok [(n, age)]) := by
  refine ⟨?_, ?_, ?_⟩
  · intro hneg
    match hn : name with
    | none =>
      refine ⟨⟨"age", "ge"⟩, ?_⟩
      simp [getPersonsEndpoint, exc_ok_bind, exc_error_bind, exc_map_ok, exc_map_error, bindQueryName, bindQueryAge, requiredField,
        checkGe, not_le.mpr hneg]
    | some n =>
      by_cases h1 : n.length < 1
      · refine ⟨⟨"name", "min_length"⟩, ?_⟩
        simp [getPersonsEndpoint, exc_ok_bind, exc_error_bind, exc_map_ok, exc_map_error, bindQueryName, checkMinLength, h1]
      · by_cases h2 : n.length > 50
        · refine ⟨⟨"name", "max_length"⟩, ?_⟩
          simp [getPersonsEndpoint, exc_ok_bind, exc_error_bind, exc_map_ok, exc_map_error, bindQueryName, checkMinLength,
            checkMaxLength, h1, h2]
        · refine ⟨⟨"age", "ge"⟩, ?_⟩
          simp [getPersonsEndpoint, exc_ok_bind, exc_error_bind, exc_map_ok, exc_map_error, bindQueryName, bindQueryAge, requiredField,
            checkMinLength, checkMaxLength, checkGe, h1, h2, not_le.mpr hneg]
  · intro hge hn
    subst hn
    simp [getPersonsEndpoint, exc_ok_bind, exc_error_bind, exc_map_ok, exc_map_error, bindQueryName, bindQueryAge, requiredField,
      checkGe, hge, get_persons]
  · intro n hn h1 h2 hge
    subst hn
    simp [getPersonsEndpoint, exc_ok_bind, exc_error_bind, exc_map_ok, exc_map_error, bindQueryName, bindQueryAge, requiredField,
      checkMinLength, checkMaxLength, checkGe, Nat.not_lt.mpr h1,
      Nat.not_lt.mpr h2, hge, get_persons, not_lt.mpr h2]

/-- Witness for C5: `age = -1` is rejected; omitted name with `age = 26`
yields `{"Anonymous": 26}`. -/
theorem get_persons_binds_query_parameters_witness :
    (∃ e, getPersonsEndpoint none (some (-1)) = .error e) ∧
    getPersonsEndpoint none (some 26) = .ok [("Anonymous", 26)] :=
  ⟨(get_persons_binds_query_parameters none (-1)).1 (by decide),
   (get_persons_binds_query_parameters none 26).2.1 (by decide) rfl⟩

/-- Claim C6: for any valid username and password, `POST /login` responds
with the username and the fixed message, carries no password field, and the
response does not depend on the password. -/
theorem login_echoes_username_only (u pw pw2 : String)
    (hu1 : 1 ≤ u.length) (hu2 : u.length ≤ 20)
    (hp : 8 ≤ pw.length) (hp2 : 8 ≤ pw2.length) :
    loginEndpoint (some u) (some pw) =
      .ok [("username", Value.vStr u),
           ("message", Value.vStr "Login successfully!")] ∧
    "password" ∉ ((login u pw).dict.map Prod.fst) ∧
    loginEndpoint (some u) (some pw) = loginEndpoint (some u) (some pw2) := by
  have h1 : u.length ≠ 0 := by omega
  have h2 : ¬ 20 < u.length := by omega
  have h3 : ¬ pw.length < 8 := by omega
  have h4 : ¬ pw2.length < 8 := by omega
  refine ⟨?_, ?_, ?_⟩
  · simp [loginEndpoint, exc_ok_bind, exc_error_bind, exc_map_ok, exc_map_error, requiredField, checkMinLength, checkMaxLength,
      h1, h2, h3, login, LoginOut.dict]
  · have hkeys : (login u pw).dict.map Prod.fst = ["username", "message"] := rfl
    rw [hkeys]
    decide
  · simp [loginEndpoint, exc_ok_bind, exc_error_bind, exc_map_ok, exc_map_error, requiredField, checkMinLength, checkMaxLength,
      h1, h2, h3, h4, login, LoginOut.dict]

/-- Witness for C6 at `login("mappedev", "12345678")`. -/
theorem login_echoes_username_only_witness :
    loginEndpoint (some "mappedev") (some "12345678") =
      .ok [("username", Value.vStr "mappedev"),
           ("message", Value.vStr "Login successfully!")] ∧
    "password" ∉ ((login "mappedev" "12345678").dict.map Prod.fst) ∧
    loginEndpoint (some "mappedev") (some "12345678") =
      loginEndpoint (some "mappedev") (some "abcdefgh") :=
  login_echoes_username_only "mappedev" "12345678" "abcdefgh"
    (by decide) (by decide) (by decide) (by decide)

/-- Claim C9: for every valid contact form, the response is exactly the
supplied `user_agent` header value (or `none` when absent); the form fields
and the `ads` cookie never reach the output. -/
theorem contact_returns_user_agent_verbatim (emailOk : String → Bool)
    (fn ln em msg : String) (ua ads : Option String)
    (hf1 : 1 ≤ fn.length) (hf2 : fn.length ≤ 20)
    (hl1 : 1 ≤ ln.length) (hl2 : ln.length ≤ 20)
    (he : emailOk em = true) (hm : 20 ≤ msg.length) :
    contactEndpoint emailOk (some fn) (some ln) (some em) (some msg) ua ads =
      .ok ua := by
  have a1 : fn.length ≠ 0 := by omega
  have a2 : ¬ 20 < fn.length := by omega
  have a3 : ln.length ≠ 0 := by omega
  have a4 : ¬ 20 < ln.length := by omega
  have a5 : ¬ msg.length < 20 := by omega
  simp [contactEndpoint, exc_ok_bind, exc_error_bind, exc_map_ok, exc_map_error, requiredField, checkMinLength, checkMaxLength,
    checkFormat, a1, a2, a3, a4, a5, he, contact]

/-- Witness for C9: a concrete valid form with and without a user agent. -/
theorem contact_returns_user_agent_verbatim_witness :
    contactEndpoint (fun _ => true) (some "Mario") (some "Peña")
      (some "user@email.com") (some "This is a sample message.")
      (some "Mozilla/5.0") (some "ads-cookie") = .ok (some "Mozilla/5.0") :=
  contact_returns_user_agent_verbatim (fun _ => true) "Mario" "Peña"
    "user@email.com" "This is a sample message." (some "Mozilla/5.0")
    (some "ads-cookie") (by decide) (by decide) (by decide) (by decide)
    rfl (by decide)

end Fundamentals
